import Mathlib

/-!
snippetbox: request handlers, route table and form-error collection.

A shallow embedding of `cmd/web/handlers.go`, `cmd/web/helpers.go`,
`cmd/web/routes.go` and `pkg/forms/errors.go`.

* Go maps `map[string][]string` are association lists read through a lookup
  (`index`); two maps are the same when every key looks up the same slice.
  A slice is modelled by its contents, which is exact for a collection built
  from the empty map by `Add`, where no two fields share a backing array.
* Handlers return the ordered list of observable effects they perform
  (data-accessor calls, session operations, log lines, response writes).
* Collaborators outside the repository (strconv, net/url, net/http, alice,
  pat) are modelled from their documented behaviour.
-/

set_option autoImplicit false

/-! ## Go library collaborators -/

namespace unicode

/-- The predicate `unicode.IsSpace`: the Unicode White_Space code points. -/
def IsSpace (c : Char) : Bool :=
  let n := c.toNat
  (9 ≤ n && n ≤ 13) || n == 32 || n == 0x85 || n == 0xA0 || n == 0x1680 ||
  (0x2000 ≤ n && n ≤ 0x200A) || n == 0x2028 || n == 0x2029 || n == 0x202F ||
  n == 0x205F || n == 0x3000

end unicode

namespace strings

/-- The function `strings.TrimSpace`: drop leading and trailing white space. -/
def TrimSpace (s : String) : String :=
  String.mk (((s.data.dropWhile unicode.IsSpace).reverse.dropWhile unicode.IsSpace).reverse)

end strings

namespace strconv

/-- Width of the Go type `int` (`strconv.IntSize`) on the 64-bit targets the server runs on. -/
def IntSize : Nat := 64

/-- Value of a run of ASCII decimal digits read left to right; `none` on any other character. -/
def parseDigits : List Char → Nat → Option Nat
  | [], acc => some acc
  | c :: cs, acc => if c.isDigit then parseDigits cs (acc * 10 + (c.toNat - 48)) else none

/-- The optional leading sign of a numeral: whether it is a minus, and the remaining text. -/
def splitSign : List Char → Bool × List Char
  | '-' :: t => (true, t)
  | '+' :: t => (false, t)
  | t => (false, t)

/-- The function `strconv.Atoi`, with `none` standing for a non-nil error (syntax or range):
an optional sign, then at least one decimal digit and nothing else, and a value that fits `int`. -/
def Atoi (s : String) : Option Int :=
  let signed := splitSign s.data
  match signed.2 with
  | [] => none
  | ds =>
    match parseDigits ds 0 with
    | none => none
    | some n =>
      if signed.1 then (if n ≤ 2 ^ (IntSize - 1) then some (-(n : Int)) else none)
      else (if n < 2 ^ (IntSize - 1) then some (n : Int) else none)

end strconv

namespace url

/-- The Go type `url.Values`, a `map[string][]string`. -/
abbrev Values := List (String × List String)

/-- Map read `v[key]`. -/
def Values.index : Values → String → List String
  | [], _ => []
  | (k, v) :: rest, key => if k = key then v else Values.index rest key

/-- The method `Values.Get`: the first value stored under `key`, or the empty string. -/
def Values.Get (v : Values) (key : String) : String :=
  match v.index key with
  | [] => ""
  | x :: _ => x

end url

namespace http

def StatusSeeOther : Nat := 303
def StatusBadRequest : Nat := 400
def StatusNotFound : Nat := 404
def StatusInternalServerError : Nat := 500

/-- The function `http.StatusText` on the status codes this program uses; the
empty string for a code without a registered text. -/
def StatusText (code : Nat) : String :=
  match code with
  | 200 => "OK"
  | 303 => "See Other"
  | 400 => "Bad Request"
  | 401 => "Unauthorized"
  | 403 => "Forbidden"
  | 404 => "Not Found"
  | 405 => "Method Not Allowed"
  | 500 => "Internal Server Error"
  | _ => ""

end http

/-- A Go `error` value as the handlers observe it: its text and whether
`errors.Is(err, models.ErrNoRecord)` holds for it. -/
structure GoError where
  text : String
  isNoRecord : Bool
  deriving DecidableEq, Repr

/-- The method `err.Error()`. -/
def GoError.Error (err : GoError) : String := err.text

/-! ## pkg/forms/errors.go -/

namespace forms

/-- The Go type `errors`, a `map[string][]string`: field name to message slice. -/
abbrev errors := List (String × List String)

/-- Map read `e[field]`: the slice stored under `field`, the nil slice when absent. -/
def errors.index : errors → String → List String
  | [], _ => []
  | (k, v) :: rest, field => if k = field then v else errors.index rest field

/-- Map write `e[field] = v`: overwrite the binding of `field` or create it. -/
def errors.assign : errors → String → List String → errors
  | [], field, v => [(field, v)]
  | (k, w) :: rest, field, v =>
    if k = field then (k, v) :: rest else (k, w) :: errors.assign rest field v

/-- Key presence, `_, ok := e[field]`. -/
def errors.hasEntry (e : errors) (field : String) : Bool :=
  e.any (fun kv => decide (kv.1 = field))

/-- The method `errors.Add`: `e[field] = append(e[field], message)`. The slice is modelled
by its contents, so `append` never touches another field; this is exact when the field
shares no backing array with another field, as in every collection built from the empty
one by `Add` (see `errors.built`). -/
def errors.Add (e : errors) (field message : String) : errors :=
  e.assign field (e.index field ++ [message])

/-- The collection built from the empty one, `errors(map[string][]string{})`, by the
given Add calls in order. Every field then owns the slice it was given by its own Add
calls, so no two fields share storage. -/
def errors.built (calls : List (String × String)) : errors :=
  calls.foldl (fun acc c => acc.Add c.1 c.2) []

/-- The method `errors.Get`: the first message for `field`, or the empty string. -/
def errors.Get (e : errors) (field : String) : String :=
  let es := e.index field
  match es with
  | [] => ""
  | m :: _ => m

end forms

/-! ## pkg/forms: the Form type and its rules -/

namespace forms

/-- Modelled from the spec: the `Form` type of pkg/forms, whose file is not among the
sources. The spec describes it as the submitted values (field name to one or more
strings) together with an `Errors` collection. -/
structure Form where
  Values : url.Values
  Errors : errors
  deriving DecidableEq, Repr

/-- Modelled from the spec: `forms.New`, absent from the sources. A Form is created
fresh per submission, holding the submitted data and an empty Errors collection. -/
def New (data : url.Values) : Form := { Values := data, Errors := [] }

/-- Modelled from the spec: `Form.Get`, absent from the sources. The first submitted
value for a field, or the empty string. -/
def Form.Get (f : Form) (field : String) : String := f.Values.Get field

/-- A field is blank when none of its submitted values is non-blank after trimming. -/
def fieldBlank (data : url.Values) (field : String) : Bool :=
  !(data.index field).any (fun v => decide (strings.TrimSpace v ≠ ""))

/-- Modelled from the spec: `Form.Required`, absent from the sources. Every named field
must have at least one non-blank (post-trim) value; a violation appends
"This field cannot be blank" to the field. -/
def Form.Required (f : Form) (fields : List String) : Form :=
  fields.foldl
    (fun g field =>
      if fieldBlank g.Values field then
        { g with Errors := g.Errors.Add field "This field cannot be blank" }
      else g)
    f

/-- Modelled from the spec: `Form.MaxLength`, absent from the sources. The value length
in characters must not exceed `n`; a violation appends
"This field is too long (maximum is N characters)". -/
def Form.MaxLength (f : Form) (field : String) (n : Nat) : Form :=
  if n < (f.Get field).length then
    { f with Errors :=
        f.Errors.Add field ("This field is too long (maximum is " ++ toString n ++ " characters)") }
  else f

/-- Modelled from the spec: `Form.PermittedValues`, absent from the sources. The value,
if present (non-empty), must equal one of the allowed literal strings; a violation
appends "This field is invalid". -/
def Form.PermittedValues (f : Form) (field : String) (allowed : List String) : Form :=
  let value := f.Get field
  if value = "" then f
  else if value ∈ allowed then f
  else { f with Errors := f.Errors.Add field "This field is invalid" }

/-- Modelled from the spec: `Form.Valid`, absent from the sources. True iff Errors is empty. -/
def Form.Valid (f : Form) : Bool := f.Errors.length == 0

end forms

/-! ## cmd/web: application state, requests and effects -/

namespace web

/-- Modelled from the spec: the snippet record of pkg/models, whose file is not among
the sources; the handlers only pass it through as a payload. -/
structure Snippet where
  ID : Int
  Title : String
  Content : String
  Created : Int
  Expires : Int
  deriving DecidableEq, Repr

/-- Modelled from the spec: the `templateData` struct of cmd/web/templates.go, not among
the sources: current year, flash message, CSRF token, authentication flag and the
handler-specific payload (snippet list, single snippet, or form with errors). -/
structure templateData where
  CSRFToken : String := ""
  CurrentYear : Int := 0
  Flash : String := ""
  Form : Option forms.Form := none
  IsAuthenticated : Bool := false
  Snippet : Option web.Snippet := none
  Snippets : List web.Snippet := []
  deriving DecidableEq, Repr

/-- A parsed template set; `Execute` yields the rendered bytes or an error. -/
structure Template where
  Execute : templateData → Except GoError String

/-- The data accessor `app.snippets` (a `*mysql.SnippetModel`), as its three methods. -/
structure SnippetModel where
  Latest : Except GoError (List Snippet)
  Get : Int → Except GoError Snippet
  Insert : String → String → String → Except GoError Int

/-- The `application` struct of main.go, with the two ambient readings the helpers
take (`time.Now().Year()` and `debug.Stack()`). -/
structure application where
  snippets : SnippetModel
  templateCache : List (String × Template)
  currentYear : Int
  stack : String

/-- What a handler reads from `*http.Request`. -/
structure Request where
  Method : String
  Path : String
  /-- The mapping `r.URL.Query()`. -/
  Query : url.Values
  /-- Outcome of `r.ParseForm()`: its error, or the resulting `r.PostForm`. -/
  PostForm : Except GoError url.Values
  /-- String values held by the session attached to the request. -/
  Session : List (String × String)
  /-- The value `nosurf.Token(r)`. -/
  CSRFToken : String
  /-- The value `r.Context().Value(contextKeyIsAuthenticated).(bool)`; `none` when the
  type assertion fails. -/
  CtxIsAuthenticated : Option Bool

/-- Observable actions of a handler, in program order. -/
inductive Effect
  | snippetsLatest
  | snippetsGet (id : Int)
  | snippetsInsert (title content expires : String)
  | sessionPut (key value : String)
  | sessionPopString (key : String)
  | errorLogOutput (calldepth : Nat) (trace : String)
  | httpError (error : String) (code : Nat)
  | httpRedirect (url : String) (code : Nat)
  | templateExecute (name : String) (td : templateData)
  | write (body : String)
  deriving DecidableEq, Repr

/-- Map read `app.templateCache[name]` with the comma-ok form. -/
def lookupTemplate : List (String × Template) → String → Option Template
  | [], _ => none
  | (k, ts) :: rest, name => if k = name then some ts else lookupTemplate rest name

/-- The method `session.PopString` seen from the reader: the string stored under `key`,
the empty string when there is none. -/
def PopString : List (String × String) → String → String
  | [], _ => ""
  | (k, v) :: rest, key => if k = key then v else PopString rest key

/-! ### helpers.go -/

/-- The helper `isAuthenticated`. -/
def application.isAuthenticated (_app : application) (r : Request) : Bool :=
  match r.CtxIsAuthenticated with
  | none => false
  | some isAuthenticated => isAuthenticated

/-- The helper `addDefaultData`; a nil `td` is replaced by a fresh struct. -/
def application.addDefaultData (app : application) (td : Option templateData) (r : Request) :
    templateData :=
  let td := match td with
    | none => ({} : templateData)
    | some t => t
  let td := { td with CSRFToken := r.CSRFToken }
  let td := { td with CurrentYear := app.currentYear }
  let td := { td with Flash := PopString r.Session "flash" }
  let td := { td with IsAuthenticated := app.isAuthenticated r }
  td

/-- The helper `serverError`: log the error text and stack trace, then reply with the
generic 500. -/
def application.serverError (app : application) (err : GoError) : List Effect :=
  let trace := err.Error ++ "\n" ++ app.stack
  [Effect.errorLogOutput 2 trace,
   Effect.httpError (http.StatusText http.StatusInternalServerError) http.StatusInternalServerError]

/-- The helper `clientError`. -/
def application.clientError (_app : application) (status : Nat) : List Effect :=
  [Effect.httpError (http.StatusText status) status]

/-- The helper `notFound`. -/
def application.notFound (app : application) : List Effect :=
  app.clientError http.StatusNotFound

/-- The helper `render`. -/
def application.render (app : application) (r : Request) (name : String)
    (td : Option templateData) : List Effect :=
  match lookupTemplate app.templateCache name with
  | none =>
    app.serverError
      { text := "The template " ++ name ++ " does not exist", isNoRecord := false }
  | some ts =>
    let data := app.addDefaultData td r
    match ts.Execute data with
    | .error err =>
      [Effect.sessionPopString "flash", Effect.templateExecute name data] ++ app.serverError err
    | .ok buf =>
      [Effect.sessionPopString "flash", Effect.templateExecute name data, Effect.write buf]

/-! ### handlers.go -/

/-- The handler `home`. -/
def application.home (app : application) (r : Request) : List Effect :=
  match app.snippets.Latest with
  | .error err => Effect.snippetsLatest :: app.serverError err
  | .ok s => Effect.snippetsLatest :: app.render r "home.page.tmpl" (some { Snippets := s })

/-- The handler `showSnippet`. -/
def application.showSnippet (app : application) (r : Request) : List Effect :=
  match strconv.Atoi (r.Query.Get ":id") with
  | none => app.notFound
  | some id =>
    if id < 1 then app.notFound
    else
      match app.snippets.Get id with
      | .error err =>
        Effect.snippetsGet id :: (if err.isNoRecord then app.notFound else app.serverError err)
      | .ok s =>
        Effect.snippetsGet id :: app.render r "show.page.tmpl" (some { Snippet := some s })

/-- The handler `createSnippetForm`. -/
def application.createSnippetForm (app : application) (r : Request) : List Effect :=
  app.render r "create.page.tmpl" (some { Form := some (forms.New []) })

/-- The form `createSnippet` builds from the posted data: the three rules in source order. -/
def snippetForm (postForm : url.Values) : forms.Form :=
  let form := forms.New postForm
  let form := form.Required ["title", "content", "expires"]
  let form := form.MaxLength "title" 100
  let form := form.PermittedValues "expires" ["365", "7", "1"]
  form

/-- The three rules `createSnippet` applies, named for running them in another order. -/
inductive SnippetRule
  | required
  | maxLength
  | permittedValues
  deriving DecidableEq, Repr

/-- One rule of `createSnippet`, with the arguments it has in the source. -/
def SnippetRule.apply (rule : SnippetRule) (form : forms.Form) : forms.Form :=
  match rule with
  | .required => form.Required ["title", "content", "expires"]
  | .maxLength => form.MaxLength "title" 100
  | .permittedValues => form.PermittedValues "expires" ["365", "7", "1"]

/-- The form obtained by running the rules of `createSnippet` in the given order;
`snippetForm` is the order required, maxLength, permittedValues. -/
def snippetFormIn (order : List SnippetRule) (postForm : url.Values) : forms.Form :=
  order.foldl (fun form rule => rule.apply form) (forms.New postForm)

/-- Whether a rule of `createSnippet` flags the field `g` of the submitted data. -/
def SnippetRule.flags (rule : SnippetRule) (data : url.Values) (g : String) : Bool :=
  match rule with
  | .required =>
    ["title", "content", "expires"].any (fun fld => decide (fld = g) && forms.fieldBlank data fld)
  | .maxLength => decide ("title" = g) && decide (100 < (data.Get "title").length)
  | .permittedValues =>
    decide ("expires" = g) &&
      decide (data.Get "expires" ≠ "" ∧ data.Get "expires" ∉ ["365", "7", "1"])

/-- The messages a rule of `createSnippet` records for the field `g` of the submitted
data, in the order it records them. -/
def SnippetRule.messages (rule : SnippetRule) (data : url.Values) (g : String) : List String :=
  match rule with
  | .required =>
    (["title", "content", "expires"].filter
      (fun fld => decide (fld = g) && forms.fieldBlank data fld)).map
        (fun _ => "This field cannot be blank")
  | .maxLength =>
    if "title" = g ∧ 100 < (data.Get "title").length then
      ["This field is too long (maximum is 100 characters)"]
    else []
  | .permittedValues =>
    if "expires" = g ∧ data.Get "expires" ≠ "" ∧ data.Get "expires" ∉ ["365", "7", "1"] then
      ["This field is invalid"]
    else []

/-- The handler `createSnippet`. -/
def application.createSnippet (app : application) (r : Request) : List Effect :=
  match r.PostForm with
  | .error _ => app.clientError http.StatusBadRequest
  | .ok postForm =>
    let form := snippetForm postForm
    if !form.Valid then
      app.render r "create.page.tmpl" (some { Form := some form })
    else
      let call := Effect.snippetsInsert (form.Get "title") (form.Get "content") (form.Get "expires")
      match app.snippets.Insert (form.Get "title") (form.Get "content") (form.Get "expires") with
      | .error err => call :: app.serverError err
      | .ok id =>
        [call,
         Effect.sessionPut "flash" "Snippet successfully created!",
         Effect.httpRedirect ("/snippet/" ++ toString id) http.StatusSeeOther]

def application.signupUserForm (_app : application) (_r : Request) : List Effect :=
  [Effect.write "Display the user signup form\n"]

def application.signupUser (_app : application) (_r : Request) : List Effect :=
  [Effect.write "Create a new user..."]

def application.loginUserForm (_app : application) (_r : Request) : List Effect :=
  [Effect.write "Display the user login form...\n"]

def application.loginUser (_app : application) (_r : Request) : List Effect :=
  [Effect.write "Authenticate and login the user...\n"]

def application.logoutUser (_app : application) (_r : Request) : List Effect :=
  [Effect.write "Logout the user...\n"]

/-! ### routes.go -/

/-- The interceptors named in `routes()`. -/
inductive Middleware
  | recoverPanic
  | logRequest
  | secureHeaders
  | sessionEnable
  | noSurf
  | authenticate
  | requireAuthentication
  deriving DecidableEq, Repr

/-- The handler methods of `application` that `routes()` registers. -/
inductive HandlerFunc
  | home
  | showSnippet
  | createSnippetForm
  | createSnippet
  | signupUserForm
  | signupUser
  | loginUserForm
  | loginUser
  | logoutUser
  deriving DecidableEq, Repr

/-- A route-level `http.Handler` value, as the expression that built it. -/
inductive Handler
  | handlerFunc (f : HandlerFunc)
  | wrapped (m : Middleware) (next : Handler)
  | FileServer (root : String)
  | StripPrefix (p : String) (h : Handler)
  deriving DecidableEq, Repr

/-- The registration call used on the router: `mux.Get` or `mux.Post`. -/
inductive Verb
  | Get
  | Post
  deriving DecidableEq, Repr

/-- One registration in the router. -/
structure Route where
  verb : Verb
  pattern : String
  handler : Handler
  deriving DecidableEq, Repr

/-- The router `*pat.PatternServeMux`: its registrations in call order. -/
abbrev PatternServeMux := List Route

/-- The constructor `pat.New`. -/
def pat.New : PatternServeMux := []

/-- The call `mux.Get(pattern, h)`. -/
def PatternServeMux.Get (mux : PatternServeMux) (pattern : String) (h : Handler) :
    PatternServeMux :=
  mux ++ [{ verb := Verb.Get, pattern := pattern, handler := h }]

/-- The call `mux.Post(pattern, h)`. -/
def PatternServeMux.Post (mux : PatternServeMux) (pattern : String) (h : Handler) :
    PatternServeMux :=
  mux ++ [{ verb := Verb.Post, pattern := pattern, handler := h }]

/-- The handler `routes()` returns: the router under the standard interceptors. -/
inductive RootHandler
  | mux (table : PatternServeMux)
  | wrapped (m : Middleware) (next : RootHandler)
  deriving DecidableEq, Repr

/-- The type `alice.Chain`: a slice of interceptor constructors. -/
structure Chain where
  constructors : List Middleware
  deriving DecidableEq, Repr

/-- The constructor `alice.New`: a chain holding a copy of the given constructors. -/
def alice.New (constructors : List Middleware) : Chain :=
  { constructors := [] ++ constructors }

/-- The method `Chain.Append`: a new chain, the receiver is not modified. -/
def Chain.Append (c : Chain) (constructors : List Middleware) : Chain :=
  { constructors := c.constructors ++ constructors }

/-- The method `Chain.Then` at the route level: the last constructor is applied first,
so the first one ends up outermost. -/
def Chain.Then (c : Chain) (h : Handler) : Handler :=
  c.constructors.foldr Handler.wrapped h

/-- The method `Chain.ThenFunc`. -/
def Chain.ThenFunc (c : Chain) (fn : HandlerFunc) : Handler :=
  c.Then (Handler.handlerFunc fn)

/-- The method `Chain.Then` applied to the router. -/
def Chain.ThenMux (c : Chain) (mux : PatternServeMux) : RootHandler :=
  c.constructors.foldr RootHandler.wrapped (RootHandler.mux mux)

/-- The method `routes`. -/
def routes : RootHandler :=
  let standardMiddleware := alice.New [.recoverPanic, .logRequest, .secureHeaders]
  let dynamicMiddleware := alice.New [.sessionEnable, .noSurf, .authenticate]
  let mux := pat.New
  let mux := mux.Get "/" (dynamicMiddleware.ThenFunc .home)
  let mux := mux.Get "/snippet/create"
    ((dynamicMiddleware.Append [.requireAuthentication]).ThenFunc .createSnippetForm)
  let mux := mux.Post "/snippet/create"
    ((dynamicMiddleware.Append [.requireAuthentication]).ThenFunc .createSnippet)
  let mux := mux.Get "/snippet/:id" (dynamicMiddleware.ThenFunc .showSnippet)
  let mux := mux.Get "/user/signup" (dynamicMiddleware.ThenFunc .signupUserForm)
  let mux := mux.Post "/user/signup" (dynamicMiddleware.ThenFunc .signupUser)
  let mux := mux.Get "/user/login" (dynamicMiddleware.ThenFunc .loginUserForm)
  let mux := mux.Post "/user/login" (dynamicMiddleware.ThenFunc .loginUser)
  let mux := mux.Post "/user/logout"
    ((dynamicMiddleware.Append [.requireAuthentication]).ThenFunc .logoutUser)
  let fileServer := Handler.FileServer "./ui/static"
  let mux := mux.Get "/static/" (Handler.StripPrefix "/static" fileServer)
  standardMiddleware.ThenMux mux

/-- The route table inside a root handler. -/
def RootHandler.table : RootHandler → PatternServeMux
  | .mux t => t
  | .wrapped _ next => next.table

/-- The interceptors around a route handler, outermost first. -/
def Handler.chain : Handler → List Middleware
  | .wrapped m next => m :: next.chain
  | _ => []

/-- The handler at the core of a route handler, under its interceptors. -/
def Handler.core : Handler → Handler
  | .wrapped _ next => next.core
  | h => h

/-- A route is gated when `requireAuthentication` is among its interceptors. -/
def Route.gated (e : Route) : Bool :=
  decide (Middleware.requireAuthentication ∈ e.handler.chain)

/-! ### Serving a request through the handler `routes()` returns -/

/-- A stage of request processing, recorded when it is entered. -/
inductive Stage
  | middleware (m : Middleware)
  | dispatch
  | terminal (f : HandlerFunc)
  | static
  /-- The router answers by itself: not found, method not allowed, or its own redirect
  for a pattern that ends in a slash. -/
  | unmatched
  deriving DecidableEq, Repr

/-- Behaviour of the collaborators `routes()` composes but does not define: the pattern
matching of the router, and for each request whether an interceptor calls the next
stage or answers by itself. -/
structure Behaviour where
  patMatch : String → String → Bool
  proceeds : Middleware → Request → Bool

/-- Modelled from the spec: the interceptors of cmd/web/middleware.go, which is not among
the sources. Panic recovery wraps the call to the next stage, access logging records the
request before delegating and security headers are set before delegating, so these three
always reach the next stage; session attachment, CSRF validation, identity injection and
the authorization gate either delegate or short-circuit with their own response. -/
def delegates (b : Behaviour) (m : Middleware) (r : Request) : Bool :=
  match m with
  | .recoverPanic => true
  | .logRequest => true
  | .secureHeaders => true
  | .sessionEnable => b.proceeds .sessionEnable r
  | .noSurf => b.proceeds .noSurf r
  | .authenticate => b.proceeds .authenticate r
  | .requireAuthentication => b.proceeds .requireAuthentication r

/-- Stages entered when a route handler serves a request. -/
def Handler.serve (b : Behaviour) : Handler → Request → List Stage
  | .handlerFunc f, _ => [Stage.terminal f]
  | .wrapped m next, r =>
    Stage.middleware m :: (if delegates b m r then next.serve b r else [])
  | .FileServer _, _ => [Stage.static]
  | .StripPrefix _ h, r => h.serve b r

/-- The methods a registration answers: `mux.Get` also registers the pattern for HEAD. -/
def Verb.serves (v : Verb) (method : String) : Bool :=
  match v with
  | .Get => method == "GET" || method == "HEAD"
  | .Post => method == "POST"

/-- Router dispatch: the first registration for the request method whose pattern
matches the path. Entries the router adds on its own account never reach a route
handler and are part of the router answering by itself. -/
def dispatch (b : Behaviour) (mux : PatternServeMux) (r : Request) : Option Route :=
  mux.find? (fun e => e.verb.serves r.Method && b.patMatch e.pattern r.Path)

/-- Stages entered when the handler returned by `routes()` serves a request. -/
def RootHandler.serve (b : Behaviour) : RootHandler → Request → List Stage
  | .mux table, r =>
    Stage.dispatch ::
      (match dispatch b table r with
       | some e => e.handler.serve b r
       | none => [Stage.unmatched])
  | .wrapped m next, r =>
    Stage.middleware m :: (if delegates b m r then next.serve b r else [])

/-- An effect that stores a snippet, writes a session value or redirects. -/
def Effect.isCommit : Effect → Bool
  | .snippetsInsert _ _ _ => true
  | .sessionPut _ _ => true
  | .httpRedirect _ _ => true
  | _ => false

/-- An effect that runs a template or writes its output to the response. -/
def Effect.isTemplateOutput : Effect → Bool
  | .templateExecute _ _ => true
  | .write _ => true
  | _ => false

/-- A route handler that is a handler function under interceptors only. -/
def Handler.isFunc : Handler → Bool
  | .handlerFunc _ => true
  | .wrapped _ next => next.isFunc
  | _ => false

/-- The method and pattern a registration was made with. -/
def Route.key (e : Route) : Verb × String := (e.verb, e.pattern)

/-- The full inbound stage order of a dynamic route. -/
def stageOrder (gated : Bool) (f : HandlerFunc) : List Stage :=
  [Stage.middleware .recoverPanic, Stage.middleware .logRequest,
   Stage.middleware .secureHeaders, Stage.dispatch,
   Stage.middleware .sessionEnable, Stage.middleware .noSurf,
   Stage.middleware .authenticate] ++
  (if gated then [Stage.middleware .requireAuthentication] else []) ++
  [Stage.terminal f]

/-! ### Sample values the theorems are instantiated at -/

/-- A template that renders the flash message. -/
def sampleTemplate : Template :=
  { Execute := fun td => Except.ok ("flash=" ++ td.Flash) }

def sampleSnippet : Snippet :=
  { ID := 1, Title := "An old silent pond", Content := "A frog jumps", Created := 0, Expires := 7 }

/-- An application holding one snippet, with id 1, and the three page templates. -/
def sampleApp : application :=
  { snippets :=
      { Latest := Except.ok [sampleSnippet],
        Get := fun id =>
          if id = 1 then Except.ok sampleSnippet
          else Except.error { text := "no matching record found", isNoRecord := true },
        Insert := fun _ _ _ => Except.ok 2 },
    templateCache :=
      [("home.page.tmpl", sampleTemplate), ("show.page.tmpl", sampleTemplate),
       ("create.page.tmpl", sampleTemplate)],
    currentYear := 2021,
    stack := "" }

/-- The sample application with an empty template cache. -/
def bareApp : application := { sampleApp with templateCache := [] }

/-- A template whose execution fails. -/
def failingTemplate : Template :=
  { Execute := fun _ =>
      Except.error { text := "template: execution failed", isNoRecord := false } }

/-- The sample application with page templates that fail to execute. -/
def brokenApp : application :=
  { sampleApp with
    templateCache :=
      [("home.page.tmpl", failingTemplate), ("show.page.tmpl", failingTemplate),
       ("create.page.tmpl", failingTemplate)] }

/-- A request with the given method, path, query parameters and posted form. -/
def sampleRequest (method path : String) (query post : url.Values) : Request :=
  { Method := method, Path := path, Query := query, PostForm := Except.ok post,
    Session := [], CSRFToken := "token", CtxIsAuthenticated := some true }

/-- A sample request whose session holds the flash message "Saved". -/
def flashRequest (method path : String) (query post : url.Values) : Request :=
  { sampleRequest method path query post with Session := [("flash", "Saved")] }

/-- Exact-path matching with every interceptor delegating. -/
def sampleBehaviour : Behaviour :=
  { patMatch := fun pattern path => pattern == path, proceeds := fun _ _ => true }

end web

/-! ## Properties of the error collection -/

namespace forms

theorem index_assign (e : errors) (field : String) (v : List String) (g : String) :
    (e.assign field v).index g = if field = g then v else e.index g := by
  induction e with
  | nil => simp [errors.assign, errors.index]
  | cons kv rest ih =>
    obtain ⟨k, w⟩ := kv
    by_cases hk : k = field
    · subst hk
      by_cases hg : k = g <;> simp [errors.assign, errors.index, hg]
    · by_cases hg : k = g
      · subst hg
        have hne : ¬ field = k := fun h => hk h.symm
        simp [errors.assign, errors.index, hk, hne]
      · simp [errors.assign, errors.index, hk, hg, ih]

theorem index_Add (e : errors) (field message g : String) :
    (e.Add field message).index g =
      if field = g then e.index field ++ [message] else e.index g := by
  unfold errors.Add
  exact index_assign e field _ g

theorem index_foldl_Add (calls : List (String × String)) (e : errors) (f : String) :
    (calls.foldl (fun acc c => acc.Add c.1 c.2) e).index f =
      e.index f ++ (calls.filter (fun c => decide (c.1 = f))).map Prod.snd := by
  induction calls generalizing e with
  | nil => simp
  | cons c rest ih =>
    simp only [List.foldl_cons, ih, index_Add]
    by_cases h : c.1 = f
    · subst h
      simp [List.filter_cons]
    · simp [List.filter_cons, h]

theorem hasEntry_assign (e : errors) (field : String) (v : List String) (g : String) :
    (e.assign field v).hasEntry g = (decide (field = g) || e.hasEntry g) := by
  induction e with
  | nil => simp [errors.assign, errors.hasEntry]
  | cons kv rest ih =>
    obtain ⟨k, w⟩ := kv
    by_cases hk : k = field
    · subst hk
      by_cases hg : k = g <;> simp [errors.assign, errors.hasEntry, hg]
    · have ih2 : List.any (errors.assign rest field v) (fun kv => decide (kv.1 = g)) =
          (decide (field = g) || List.any rest (fun kv => decide (kv.1 = g))) := ih
      by_cases hg : k = g
      · subst hg
        simp [errors.assign, errors.hasEntry, hk]
      · simp [errors.assign, errors.hasEntry, hk, hg, ih2]

theorem hasEntry_Add (e : errors) (field message g : String) :
    (e.Add field message).hasEntry g = (decide (field = g) || e.hasEntry g) := by
  unfold errors.Add
  exact hasEntry_assign e field _ g

end forms

namespace forms

/-- C7: for a collection built from the empty one by any sequence of Add calls, Get(f) is
the message of the earliest Add for f and the empty string when there is none; an Add for
another field leaves Get(f) unchanged, and a later Add for f keeps the first message. -/
theorem errors_Get_earliest_Add (calls : List (String × String)) (f : String) :
    errors.Get (calls.foldl (fun acc c => acc.Add c.1 c.2) []) f =
        ((calls.find? (fun c => decide (c.1 = f))).map Prod.snd).getD "" ∧
    (∀ (e : errors) (g m : String), g ≠ f → (e.Add g m).Get f = e.Get f) ∧
    (∀ (e : errors) (m m2 : String), ((e.Add f m).Add f m2).Get f = (e.Add f m).Get f) := by
  refine ⟨?_, ?_, ?_⟩
  · unfold errors.Get
    rw [index_foldl_Add]
    induction calls with
    | nil => simp [errors.index]
    | cons c rest ih =>
      by_cases h : c.1 = f
      · simp [errors.index, List.filter_cons, List.find?_cons, h]
      · simpa [errors.index, List.filter_cons, List.find?_cons, h] using ih
  · intro e g m hg
    unfold errors.Get
    rw [index_Add]
    simp [hg]
  · intro e m m2
    unfold errors.Get
    rw [index_Add, index_Add]
    simp only [if_true]
    cases e.index f <;> simp

/-- Witness for C7 on three Add calls, two of them for "title". -/
theorem errors_Get_earliest_Add_witness :
    errors.Get
        (errors.Add (errors.Add (errors.Add [] "title" "first") "expires" "other") "title" "second")
        "title" = "first" ∧
    errors.Get (errors.Add (errors.Add [] "title" "first") "expires" "other") "content" = "" := by
  have h := errors_Get_earliest_Add
    [("title", "first"), ("expires", "other"), ("title", "second")] "title"
  have h2 := errors_Get_earliest_Add [("title", "first"), ("expires", "other")] "content"
  refine ⟨?_, ?_⟩
  · simpa using h.1
  · simpa using h2.1

end forms

namespace forms

end forms

/-! ## Properties of the validation rules -/

namespace forms

theorem Required_Values (fields : List String) (f : Form) :
    (f.Required fields).Values = f.Values := by
  unfold Form.Required
  induction fields generalizing f with
  | nil => rfl
  | cons fld rest ih =>
    simp only [List.foldl_cons]
    rw [ih]
    split <;> rfl

theorem Required_hasEntry (fields : List String) (f : Form) (g : String) :
    (f.Required fields).Errors.hasEntry g =
      (f.Errors.hasEntry g ||
        fields.any (fun fld => decide (fld = g) && fieldBlank f.Values fld)) := by
  unfold Form.Required
  induction fields generalizing f with
  | nil => simp
  | cons fld rest ih =>
    simp only [List.foldl_cons, List.any_cons]
    rw [ih]
    by_cases hb : fieldBlank f.Values fld = true
    · simp only [hb, if_true, hasEntry_Add, Bool.and_true]
      cases f.Errors.hasEntry g <;> cases decide (fld = g) <;> simp
    · simp only [hb, if_false]
      have hb2 : fieldBlank f.Values fld = false := by simpa using hb
      simp [hb2]

theorem MaxLength_Values (f : Form) (field : String) (n : Nat) :
    (f.MaxLength field n).Values = f.Values := by
  unfold Form.MaxLength
  split <;> rfl

theorem MaxLength_hasEntry (f : Form) (field : String) (n : Nat) (g : String) :
    (f.MaxLength field n).Errors.hasEntry g =
      (f.Errors.hasEntry g || (decide (field = g) && decide (n < (f.Get field).length))) := by
  unfold Form.MaxLength
  by_cases h : n < (f.Get field).length
  · simp only [h, if_true, hasEntry_Add, decide_True, Bool.and_true]
    cases f.Errors.hasEntry g <;> cases decide (field = g) <;> simp
  · simp [h]

theorem PermittedValues_hasEntry (f : Form) (field : String) (allowed : List String)
    (g : String) :
    (f.PermittedValues field allowed).Errors.hasEntry g =
      (f.Errors.hasEntry g ||
        (decide (field = g) && decide (f.Get field ≠ "" ∧ f.Get field ∉ allowed))) := by
  unfold Form.PermittedValues
  by_cases h1 : f.Get field = ""
  · simp [h1]
  · by_cases h2 : f.Get field ∈ allowed
    · simp [h1, h2]
    · simp only [h1, h2, if_false, hasEntry_Add]
      cases f.Errors.hasEntry g <;> cases decide (field = g) <;> simp [h1, h2]

theorem PermittedValues_Values (f : Form) (field : String) (allowed : List String) :
    (f.PermittedValues field allowed).Values = f.Values := by
  unfold Form.PermittedValues
  dsimp only
  split
  · rfl
  · split <;> rfl

theorem Valid_iff_no_entry (f : Form) :
    f.Valid = true ↔ ∀ g : String, f.Errors.hasEntry g = false := by
  unfold Form.Valid
  cases hE : f.Errors with
  | nil => simp [errors.hasEntry]
  | cons kv rest =>
    simp only [List.length_cons, beq_iff_eq, Nat.succ_ne_zero, false_iff, not_forall]
    exact ⟨kv.1, by simp [errors.hasEntry]⟩

end forms

namespace web

theorem snippetForm_hasEntry (data : url.Values) (g : String) :
    (snippetForm data).Errors.hasEntry g =
      ((decide ("title" = g) &&
          (forms.fieldBlank data "title" || decide (100 < (data.Get "title").length))) ||
       (decide ("content" = g) && forms.fieldBlank data "content") ||
       (decide ("expires" = g) &&
          (forms.fieldBlank data "expires" ||
            decide (data.Get "expires" ≠ "" ∧ data.Get "expires" ∉ ["365", "7", "1"])))) := by
  have h0 : forms.errors.hasEntry (forms.New data).Errors g = false := rfl
  have hv : (forms.New data).Values = data := rfl
  simp only [snippetForm, forms.PermittedValues_hasEntry, forms.MaxLength_hasEntry,
    forms.Required_hasEntry, forms.Form.Get, forms.MaxLength_Values, forms.Required_Values,
    List.any_cons, List.any_nil, h0, hv]
  generalize decide ("title" = g) = t1
  generalize decide ("content" = g) = t2
  generalize decide ("expires" = g) = t3
  generalize forms.fieldBlank data "title" = b1
  generalize forms.fieldBlank data "content" = b2
  generalize forms.fieldBlank data "expires" = b3
  generalize decide (100 < (url.Values.Get data "title").length) = c1
  generalize decide (url.Values.Get data "expires" ≠ "" ∧
    url.Values.Get data "expires" ∉ ["365", "7", "1"]) = c2
  cases t1 <;> cases t2 <;> cases t3 <;> cases b1 <;> cases b2 <;> cases b3 <;>
    cases c1 <;> cases c2 <;> rfl

/-- C5: createSnippet builds its form by Required, MaxLength and PermittedValues in
sequence; afterwards "title" has an entry iff it is blank or longer than 100 characters,
"content" iff it is blank, "expires" iff it is blank or non-empty and not permitted, no
other field has one, and Valid() holds iff none of these conditions does. The two
submissions named in the spec behave as described. -/
theorem snippetForm_errors_characterised (data : url.Values) :
    snippetForm data =
      (((forms.New data).Required ["title", "content", "expires"]).MaxLength
        "title" 100).PermittedValues "expires" ["365", "7", "1"] ∧
    ((snippetForm data).Errors.hasEntry "title" = true ↔
      (forms.fieldBlank data "title" = true ∨ 100 < (data.Get "title").length)) ∧
    ((snippetForm data).Errors.hasEntry "content" = true ↔
      forms.fieldBlank data "content" = true) ∧
    ((snippetForm data).Errors.hasEntry "expires" = true ↔
      (forms.fieldBlank data "expires" = true ∨
        (data.Get "expires" ≠ "" ∧ data.Get "expires" ∉ ["365", "7", "1"]))) ∧
    (∀ g : String, g ∉ ["title", "content", "expires"] →
      (snippetForm data).Errors.hasEntry g = false) ∧
    ((snippetForm data).Valid = true ↔
      ¬ (forms.fieldBlank data "title" = true ∨ 100 < (data.Get "title").length) ∧
      ¬ forms.fieldBlank data "content" = true ∧
      ¬ (forms.fieldBlank data "expires" = true ∨
        (data.Get "expires" ≠ "" ∧ data.Get "expires" ∉ ["365", "7", "1"]))) ∧
    ((snippetForm [("content", [String.mk (List.replicate 60 'a')]),
        ("expires", ["10"])]).Errors.hasEntry "title" = true ∧
      (snippetForm [("content", [String.mk (List.replicate 60 'a')]),
        ("expires", ["10"])]).Errors.hasEntry "expires" = true ∧
      (snippetForm [("content", [String.mk (List.replicate 60 'a')]),
        ("expires", ["10"])]).Valid = false) ∧
    (snippetForm [("title", [String.mk (List.replicate 101 'a')]), ("content", ["x"]),
        ("expires", ["7"])]).Errors =
      [("title", ["This field is too long (maximum is 100 characters)"])] := by
  have hT : (snippetForm data).Errors.hasEntry "title" = true ↔
      (forms.fieldBlank data "title" = true ∨ 100 < (data.Get "title").length) := by
    rw [snippetForm_hasEntry]
    simp
  have hC : (snippetForm data).Errors.hasEntry "content" = true ↔
      forms.fieldBlank data "content" = true := by
    rw [snippetForm_hasEntry]
    simp
  have hE : (snippetForm data).Errors.hasEntry "expires" = true ↔
      (forms.fieldBlank data "expires" = true ∨
        (data.Get "expires" ≠ "" ∧ data.Get "expires" ∉ ["365", "7", "1"])) := by
    rw [snippetForm_hasEntry]
    simp
  have hO : ∀ g : String, g ∉ ["title", "content", "expires"] →
      (snippetForm data).Errors.hasEntry g = false := by
    intro g hg
    simp only [List.mem_cons, List.mem_singleton, not_or, List.mem_nil_iff, or_false] at hg
    obtain ⟨h1, h2, h3⟩ := hg
    rw [snippetForm_hasEntry]
    have e1 : decide ("title" = g) = false := by simpa using fun h => h1 h.symm
    have e2 : decide ("content" = g) = false := by simpa using fun h => h2 h.symm
    have e3 : decide ("expires" = g) = false := by simpa using fun h => h3 h.symm
    simp [e1, e2, e3]
  refine ⟨rfl, hT, hC, hE, hO, ?_, ⟨by decide, by decide, by decide⟩, by decide⟩
  rw [forms.Valid_iff_no_entry]
  constructor
  · intro h
    refine ⟨?_, ?_, ?_⟩
    · rw [← hT, h]; simp
    · rw [← hC, h]; simp
    · rw [← hE, h]; simp
  · rintro ⟨h1, h2, h3⟩ g
    by_cases hg : g ∈ ["title", "content", "expires"]
    · simp only [List.mem_cons, List.mem_singleton, List.mem_nil_iff, or_false] at hg
      rcases hg with rfl | rfl | rfl
      · rw [← hT] at h1; simpa using h1
      · rw [← hC] at h2; simpa using h2
      · rw [← hE] at h3; simpa using h3
    · exact hO g hg

/-- Witness for C5: a title of 101 characters is outside the three field names' clean
case, while the field "other" is not one of the three names and so carries no entry. -/
theorem snippetForm_errors_characterised_witness :
    "other" ∉ ["title", "content", "expires"] ∧
    (snippetForm [("title", ["t"]), ("other", [""])]).Errors.hasEntry "other" = false :=
  ⟨by decide,
   (snippetForm_errors_characterised [("title", ["t"]), ("other", [""])]).2.2.2.2.1
     "other" (by decide)⟩

end web

/-! ## Properties of the helpers and handlers -/

namespace web

theorem serverError_eq (app : application) (err : GoError) :
    app.serverError err =
      [Effect.errorLogOutput 2 (err.text ++ "\n" ++ app.stack),
       Effect.httpError "Internal Server Error" 500] := rfl

theorem render_no_commit (app : application) (r : Request) (name : String)
    (td : Option templateData) :
    ∀ x ∈ app.render r name td, x.isCommit = false := by
  intro x hx
  unfold application.render at hx
  split at hx
  · rw [serverError_eq] at hx
    simp only [List.mem_cons, List.mem_singleton, List.mem_nil_iff, or_false] at hx
    rcases hx with rfl | rfl <;> rfl
  · dsimp only at hx
    split at hx
    · rw [serverError_eq] at hx
      simp only [List.cons_append, List.nil_append, List.mem_cons, List.mem_singleton,
        List.mem_nil_iff, or_false] at hx
      rcases hx with rfl | rfl | rfl | rfl <;> rfl
    · simp only [List.mem_cons, List.mem_singleton, List.mem_nil_iff, or_false] at hx
      rcases hx with rfl | rfl | rfl <;> rfl

theorem render_missing (app : application) (r : Request) (name : String)
    (td : Option templateData) (hmiss : lookupTemplate app.templateCache name = none) :
    app.render r name td =
      [Effect.errorLogOutput 2 ("The template " ++ name ++ " does not exist" ++ "\n" ++ app.stack),
       Effect.httpError "Internal Server Error" 500] := by
  unfold application.render
  rw [hmiss]
  rfl

theorem render_cached_ok (app : application) (r : Request) (name : String)
    (td : Option templateData) (ts : Template) (buf : String)
    (hts : lookupTemplate app.templateCache name = some ts)
    (hexec : ts.Execute (app.addDefaultData td r) = Except.ok buf) :
    app.render r name td =
      [Effect.sessionPopString "flash",
       Effect.templateExecute name (app.addDefaultData td r), Effect.write buf] := by
  unfold application.render
  rw [hts]
  dsimp only
  rw [hexec]

theorem render_cached_error (app : application) (r : Request) (name : String)
    (td : Option templateData) (ts : Template) (err : GoError)
    (hts : lookupTemplate app.templateCache name = some ts)
    (hexec : ts.Execute (app.addDefaultData td r) = Except.error err) :
    app.render r name td =
      [Effect.sessionPopString "flash",
       Effect.templateExecute name (app.addDefaultData td r),
       Effect.errorLogOutput 2 (err.Error ++ "\n" ++ app.stack),
       Effect.httpError "Internal Server Error" 500] := by
  unfold application.render
  rw [hts]
  dsimp only
  rw [hexec]
  rfl

/-- C1 (as stated, refuted): an empty submission parses and is not Valid(), yet with
create.page.tmpl missing from the template cache createSnippet only logs the error and
answers 500, executing no template; and with a template whose execution fails the template
is executed with the form but no page is written, the answer being the logged 500. -/
theorem createSnippet_invalid_not_rerendered :
    (sampleRequest "POST" "/snippet/create" [] []).PostForm = Except.ok [] ∧
    (snippetForm []).Valid = false ∧
    bareApp.createSnippet (sampleRequest "POST" "/snippet/create" [] []) =
      [Effect.errorLogOutput 2 "The template create.page.tmpl does not exist\n",
       Effect.httpError "Internal Server Error" 500] ∧
    brokenApp.createSnippet (sampleRequest "POST" "/snippet/create" [] []) =
      [Effect.sessionPopString "flash",
       Effect.templateExecute "create.page.tmpl"
         { CSRFToken := "token", CurrentYear := 2021, Flash := "",
           Form := some (snippetForm []), IsAuthenticated := true },
       Effect.errorLogOutput 2 "template: execution failed\n",
       Effect.httpError "Internal Server Error" 500] := by
  refine ⟨rfl, by decide, by decide, by decide⟩

/-- C1 (amended): when the body parses and the validated form is not Valid(), createSnippet
is the render of create.page.tmpl with that form, which carries the submitted values. If
the template is cached it is executed with template data whose Form is that form, next to
the CSRF token, the year, the popped flash message and the authentication flag, and its
output is written when execution succeeds; if execution fails, or the template is missing
from the cache, the error is logged and the generic 500 is sent. In every case there is no
snippets.Insert, no session Put and no redirect. -/
theorem createSnippet_invalid_rerenders (app : application) (r : Request) (data : url.Values)
    (hparse : r.PostForm = Except.ok data) (hinvalid : (snippetForm data).Valid = false) :
    app.createSnippet r =
        app.render r "create.page.tmpl" (some { Form := some (snippetForm data) }) ∧
    (snippetForm data).Values = data ∧
    (∀ (ts : Template) (buf : String),
      lookupTemplate app.templateCache "create.page.tmpl" = some ts →
      ts.Execute
          { CSRFToken := r.CSRFToken, CurrentYear := app.currentYear,
            Flash := PopString r.Session "flash", Form := some (snippetForm data),
            IsAuthenticated := app.isAuthenticated r } = Except.ok buf →
      app.createSnippet r =
        [Effect.sessionPopString "flash",
         Effect.templateExecute "create.page.tmpl"
           { CSRFToken := r.CSRFToken, CurrentYear := app.currentYear,
             Flash := PopString r.Session "flash", Form := some (snippetForm data),
             IsAuthenticated := app.isAuthenticated r },
         Effect.write buf]) ∧
    (∀ (ts : Template) (err : GoError),
      lookupTemplate app.templateCache "create.page.tmpl" = some ts →
      ts.Execute
          { CSRFToken := r.CSRFToken, CurrentYear := app.currentYear,
            Flash := PopString r.Session "flash", Form := some (snippetForm data),
            IsAuthenticated := app.isAuthenticated r } = Except.error err →
      app.createSnippet r =
        [Effect.sessionPopString "flash",
         Effect.templateExecute "create.page.tmpl"
           { CSRFToken := r.CSRFToken, CurrentYear := app.currentYear,
             Flash := PopString r.Session "flash", Form := some (snippetForm data),
             IsAuthenticated := app.isAuthenticated r },
         Effect.errorLogOutput 2 (err.Error ++ "\n" ++ app.stack),
         Effect.httpError "Internal Server Error" 500]) ∧
    (lookupTemplate app.templateCache "create.page.tmpl" = none →
      app.createSnippet r =
        [Effect.errorLogOutput 2
           ("The template create.page.tmpl does not exist" ++ "\n" ++ app.stack),
         Effect.httpError "Internal Server Error" 500]) ∧
    (∀ title content expires : String,
      Effect.snippetsInsert title content expires ∉ app.createSnippet r) ∧
    (∀ key value : String, Effect.sessionPut key value ∉ app.createSnippet r) ∧
    (∀ (target : String) (code : Nat), Effect.httpRedirect target code ∉ app.createSnippet r) := by
  have hrun : app.createSnippet r =
      app.render r "create.page.tmpl" (some { Form := some (snippetForm data) }) := by
    unfold application.createSnippet
    rw [hparse]
    simp [hinvalid]
  have hvals : (snippetForm data).Values = data := by
    simp only [snippetForm]
    rw [forms.PermittedValues_Values, forms.MaxLength_Values, forms.Required_Values]
    rfl
  have hdata : app.addDefaultData (some { Form := some (snippetForm data) }) r =
      { CSRFToken := r.CSRFToken, CurrentYear := app.currentYear,
        Flash := PopString r.Session "flash", Form := some (snippetForm data),
        IsAuthenticated := app.isAuthenticated r } := rfl
  refine ⟨hrun, hvals, ?_, ?_, ?_, ?_, ?_, ?_⟩
  · intro ts buf hts hexec
    rw [← hdata] at hexec
    rw [hrun, render_cached_ok app r _ _ ts buf hts hexec, hdata]
  · intro ts err hts hexec
    rw [← hdata] at hexec
    rw [hrun, render_cached_error app r _ _ ts err hts hexec, hdata]
  · intro hmiss
    rw [hrun, render_missing app r _ _ hmiss]
    rfl
  · intro t c e hmem
    rw [hrun] at hmem
    have := render_no_commit app r _ _ _ hmem
    simp [Effect.isCommit] at this
  · intro k v hmem
    rw [hrun] at hmem
    have := render_no_commit app r _ _ _ hmem
    simp [Effect.isCommit] at this
  · intro u c hmem
    rw [hrun] at hmem
    have := render_no_commit app r _ _ _ hmem
    simp [Effect.isCommit] at this

/-- C2: when the ":id" text does not parse, or parses to an integer below 1, showSnippet
answers 404 "Not Found" and nothing else, so snippets.Get is never called. -/
theorem showSnippet_bad_id_not_found (app : application) (r : Request)
    (hbad : strconv.Atoi (r.Query.Get ":id") = none ∨
      ∃ n : Int, strconv.Atoi (r.Query.Get ":id") = some n ∧ n < 1) :
    app.showSnippet r = [Effect.httpError (http.StatusText 404) 404] ∧
    http.StatusText 404 = "Not Found" ∧
    (∀ id : Int, Effect.snippetsGet id ∉ app.showSnippet r) := by
  have hrun : app.showSnippet r = [Effect.httpError (http.StatusText 404) 404] := by
    unfold application.showSnippet
    rcases hbad with h | ⟨n, h, hn⟩
    · rw [h]; rfl
    · rw [h]
      simp only [hn, if_true]
      rfl
  refine ⟨hrun, rfl, ?_⟩
  intro id hmem
  rw [hrun] at hmem
  simp at hmem

/-- C3 (as stated, refuted): the text "1" parses to 1 and snippets.Get(1) returns the stored
snippet without error, yet with show.page.tmpl missing from the template cache the answer
is the logged 500 and no template is executed; and with a template whose execution fails
the template is executed with the snippet but no page is written, the answer again being
the logged 500. The response is not decided by the result of Get alone. -/
theorem showSnippet_found_not_rendered :
    strconv.Atoi ((sampleRequest "GET" "/snippet/1" [(":id", ["1"])] []).Query.Get ":id") =
      some 1 ∧
    bareApp.snippets.Get 1 = Except.ok sampleSnippet ∧
    brokenApp.snippets.Get 1 = Except.ok sampleSnippet ∧
    bareApp.showSnippet (sampleRequest "GET" "/snippet/1" [(":id", ["1"])] []) =
      [Effect.snippetsGet 1,
       Effect.errorLogOutput 2 "The template show.page.tmpl does not exist\n",
       Effect.httpError "Internal Server Error" 500] ∧
    brokenApp.showSnippet (sampleRequest "GET" "/snippet/1" [(":id", ["1"])] []) =
      [Effect.snippetsGet 1,
       Effect.sessionPopString "flash",
       Effect.templateExecute "show.page.tmpl"
         { CSRFToken := "token", CurrentYear := 2021, Flash := "", IsAuthenticated := true,
           Snippet := some sampleSnippet },
       Effect.errorLogOutput 2 "template: execution failed\n",
       Effect.httpError "Internal Server Error" 500] := by
  refine ⟨by decide, rfl, rfl, by decide, by decide⟩

/-- C3 (amended): when the ":id" text parses to n >= 1, showSnippet first calls
snippets.Get(n); ErrNoRecord gives 404, any other error is logged and gives the generic
500, and a snippet is passed to render with show.page.tmpl. If that template is cached it
is executed with template data whose Snippet is the returned snippet, and its output is
written when execution succeeds; if execution fails, or the template is missing from the
cache, the error is logged and the generic 500 is sent. -/
theorem showSnippet_good_id_by_Get (app : application) (r : Request) (n : Int)
    (hparse : strconv.Atoi (r.Query.Get ":id") = some n) (hn : 1 ≤ n) :
    (∀ err : GoError, app.snippets.Get n = Except.error err → err.isNoRecord = true →
      app.showSnippet r = [Effect.snippetsGet n, Effect.httpError "Not Found" 404]) ∧
    (∀ err : GoError, app.snippets.Get n = Except.error err → err.isNoRecord = false →
      app.showSnippet r =
        [Effect.snippetsGet n, Effect.errorLogOutput 2 (err.Error ++ "\n" ++ app.stack),
         Effect.httpError "Internal Server Error" 500]) ∧
    (∀ s : Snippet, app.snippets.Get n = Except.ok s →
      app.showSnippet r =
        Effect.snippetsGet n :: app.render r "show.page.tmpl" (some { Snippet := some s })) ∧
    (∀ (s : Snippet) (ts : Template) (buf : String), app.snippets.Get n = Except.ok s →
      lookupTemplate app.templateCache "show.page.tmpl" = some ts →
      ts.Execute
          { CSRFToken := r.CSRFToken, CurrentYear := app.currentYear,
            Flash := PopString r.Session "flash", IsAuthenticated := app.isAuthenticated r,
            Snippet := some s } = Except.ok buf →
      app.showSnippet r =
        [Effect.snippetsGet n,
         Effect.sessionPopString "flash",
         Effect.templateExecute "show.page.tmpl"
           { CSRFToken := r.CSRFToken, CurrentYear := app.currentYear,
             Flash := PopString r.Session "flash", IsAuthenticated := app.isAuthenticated r,
             Snippet := some s },
         Effect.write buf]) ∧
    (∀ (s : Snippet) (ts : Template) (err : GoError), app.snippets.Get n = Except.ok s →
      lookupTemplate app.templateCache "show.page.tmpl" = some ts →
      ts.Execute
          { CSRFToken := r.CSRFToken, CurrentYear := app.currentYear,
            Flash := PopString r.Session "flash", IsAuthenticated := app.isAuthenticated r,
            Snippet := some s } = Except.error err →
      app.showSnippet r =
        [Effect.snippetsGet n,
         Effect.sessionPopString "flash",
         Effect.templateExecute "show.page.tmpl"
           { CSRFToken := r.CSRFToken, CurrentYear := app.currentYear,
             Flash := PopString r.Session "flash", IsAuthenticated := app.isAuthenticated r,
             Snippet := some s },
         Effect.errorLogOutput 2 (err.Error ++ "\n" ++ app.stack),
         Effect.httpError "Internal Server Error" 500]) ∧
    (∀ s : Snippet, app.snippets.Get n = Except.ok s →
      lookupTemplate app.templateCache "show.page.tmpl" = none →
      app.showSnippet r =
        [Effect.snippetsGet n,
         Effect.errorLogOutput 2
           ("The template show.page.tmpl does not exist" ++ "\n" ++ app.stack),
         Effect.httpError "Internal Server Error" 500]) := by
  have hlt : ¬ n < 1 := by omega
  have hrun : ∀ s : Snippet, app.snippets.Get n = Except.ok s →
      app.showSnippet r =
        Effect.snippetsGet n ::
          app.render r "show.page.tmpl" (some { Snippet := some s }) := by
    intro s hget
    unfold application.showSnippet
    rw [hparse]
    simp only [hlt, if_false, hget]
  have hdata : ∀ s : Snippet, app.addDefaultData (some { Snippet := some s }) r =
      { CSRFToken := r.CSRFToken, CurrentYear := app.currentYear,
        Flash := PopString r.Session "flash", IsAuthenticated := app.isAuthenticated r,
        Snippet := some s } := fun _ => rfl
  refine ⟨?_, ?_, hrun, ?_, ?_, ?_⟩
  · intro err hget hno
    unfold application.showSnippet
    rw [hparse]
    simp only [hlt, if_false, hget, hno, if_true]
    rfl
  · intro err hget hno
    unfold application.showSnippet
    rw [hparse]
    simp only [hlt, if_false, hget, hno]
    rfl
  · intro s ts buf hget hts hexec
    rw [← hdata s] at hexec
    rw [hrun s hget, render_cached_ok app r _ _ ts buf hts hexec, hdata s]
  · intro s ts err hget hts hexec
    rw [← hdata s] at hexec
    rw [hrun s hget, render_cached_error app r _ _ ts err hts hexec, hdata s]
  · intro s hget hmiss
    rw [hrun s hget, render_missing app r _ _ hmiss]
    rfl

end web

namespace web

/-- Witness for C1 (amended): an empty submission fails validation; with the page cached
it is rendered again with the form, its three messages and the flash message popped from
the session. -/
theorem createSnippet_invalid_rerenders_witness :
    (flashRequest "POST" "/snippet/create" [] []).PostForm = Except.ok [] ∧
    (snippetForm []).Valid = false ∧
    lookupTemplate sampleApp.templateCache "create.page.tmpl" = some sampleTemplate ∧
    snippetForm [] =
      { Values := [],
        Errors := [("title", ["This field cannot be blank"]),
                   ("content", ["This field cannot be blank"]),
                   ("expires", ["This field cannot be blank"])] } ∧
    sampleApp.createSnippet (flashRequest "POST" "/snippet/create" [] []) =
      [Effect.sessionPopString "flash",
       Effect.templateExecute "create.page.tmpl"
         { CSRFToken := "token", CurrentYear := 2021, Flash := "Saved",
           Form := some (snippetForm []), IsAuthenticated := true },
       Effect.write "flash=Saved"] :=
  ⟨rfl, by decide, rfl, by decide,
   (createSnippet_invalid_rerenders sampleApp (flashRequest "POST" "/snippet/create" [] []) []
     rfl (by decide)).2.2.1 sampleTemplate "flash=Saved" rfl rfl⟩

/-- Witness for C2: the text "abc" does not parse. -/
theorem showSnippet_bad_id_not_found_witness :
    strconv.Atoi ((sampleRequest "GET" "/snippet/abc" [(":id", ["abc"])] []).Query.Get ":id") =
      none ∧
    sampleApp.showSnippet (sampleRequest "GET" "/snippet/abc" [(":id", ["abc"])] []) =
      [Effect.httpError (http.StatusText 404) 404] :=
  ⟨by decide,
   (showSnippet_bad_id_not_found sampleApp
     (sampleRequest "GET" "/snippet/abc" [(":id", ["abc"])] []) (Or.inl (by decide))).1⟩

/-- Witness for C3 (amended): the text "1" parses to 1 and, with the page cached, the
stored snippet is rendered. -/
theorem showSnippet_good_id_by_Get_witness :
    strconv.Atoi ((flashRequest "GET" "/snippet/1" [(":id", ["1"])] []).Query.Get ":id") =
      some 1 ∧
    sampleApp.snippets.Get 1 = Except.ok sampleSnippet ∧
    lookupTemplate sampleApp.templateCache "show.page.tmpl" = some sampleTemplate ∧
    sampleApp.showSnippet (flashRequest "GET" "/snippet/1" [(":id", ["1"])] []) =
      [Effect.snippetsGet 1,
       Effect.sessionPopString "flash",
       Effect.templateExecute "show.page.tmpl"
         { CSRFToken := "token", CurrentYear := 2021, Flash := "Saved",
           IsAuthenticated := true, Snippet := some sampleSnippet },
       Effect.write "flash=Saved"] :=
  ⟨by decide, rfl, rfl,
   (showSnippet_good_id_by_Get sampleApp (flashRequest "GET" "/snippet/1" [(":id", ["1"])] [])
     1 (by decide) (by decide)).2.2.2.1 sampleSnippet sampleTemplate "flash=Saved" rfl rfl
     rfl⟩

/-- C8 (as stated, refuted): with an empty template cache, render of home.page.tmpl logs the
error and answers 500 "Internal Server Error", not 404. -/
theorem render_missing_template_is_500 :
    lookupTemplate bareApp.templateCache "home.page.tmpl" = none ∧
    bareApp.render (sampleRequest "GET" "/" [] []) "home.page.tmpl" none =
      [Effect.errorLogOutput 2 "The template home.page.tmpl does not exist\n",
       Effect.httpError "Internal Server Error" 500] ∧
    Effect.httpError (http.StatusText 404) 404 ∉
      bareApp.render (sampleRequest "GET" "/" [] []) "home.page.tmpl" none := by
  refine ⟨rfl, by decide, by decide⟩

/-- C8 (amended): for a page name with no entry in the template cache, render logs
"The template NAME does not exist" with the stack trace, answers the generic 500, and
neither executes a template nor writes template output. -/
theorem render_missing_template_server_error (app : application) (r : Request) (name : String)
    (td : Option templateData) (hmiss : lookupTemplate app.templateCache name = none) :
    app.render r name td =
      [Effect.errorLogOutput 2 ("The template " ++ name ++ " does not exist" ++ "\n" ++ app.stack),
       Effect.httpError (http.StatusText 500) 500] ∧
    http.StatusText 500 = "Internal Server Error" ∧
    (∀ x ∈ app.render r name td, x.isTemplateOutput = false) := by
  have hrun : app.render r name td =
      [Effect.errorLogOutput 2 ("The template " ++ name ++ " does not exist" ++ "\n" ++ app.stack),
       Effect.httpError (http.StatusText 500) 500] := by
    unfold application.render
    rw [hmiss]
    rfl
  refine ⟨hrun, rfl, ?_⟩
  intro x hx
  rw [hrun] at hx
  simp only [List.mem_cons, List.mem_singleton, List.mem_nil_iff, or_false] at hx
  rcases hx with rfl | rfl <;> rfl

/-- Witness for C8 (amended): the empty cache has no home.page.tmpl. -/
theorem render_missing_template_server_error_witness :
    lookupTemplate bareApp.templateCache "home.page.tmpl" = none ∧
    bareApp.render (sampleRequest "GET" "/" [] []) "home.page.tmpl" none =
      [Effect.errorLogOutput 2
        ("The template " ++ "home.page.tmpl" ++ " does not exist" ++ "\n" ++ bareApp.stack),
       Effect.httpError (http.StatusText 500) 500] :=
  ⟨rfl,
   (render_missing_template_server_error bareApp (sampleRequest "GET" "/" [] [])
     "home.page.tmpl" none rfl).1⟩

end web

/-! ## Decimal text and `strconv.Atoi` -/

namespace strconv

theorem digitChar_spec (k : Nat) (h : k < 10) :
    (Nat.digitChar k).isDigit = true ∧ (Nat.digitChar k).toNat - 48 = k := by
  interval_cases k <;> exact ⟨by decide, by decide⟩

theorem parseDigits_append (xs ys : List Char) (acc : Nat) :
    parseDigits (xs ++ ys) acc = (parseDigits xs acc).bind (fun a => parseDigits ys a) := by
  induction xs generalizing acc with
  | nil => simp [parseDigits]
  | cons c cs ih =>
    simp only [List.cons_append, parseDigits]
    split
    · exact ih _
    · rfl

theorem toDigitsCore_spec (fuel : Nat) : ∀ (n : Nat) (ds : List Char), n < fuel →
    ∃ pre : List Char, Nat.toDigitsCore 10 fuel n ds = pre ++ ds ∧ pre ≠ [] ∧
      (∀ c ∈ pre, c.isDigit = true) ∧ parseDigits pre 0 = some n := by
  induction fuel with
  | zero => intro n ds h; omega
  | succ fuel ih =>
    intro n ds h
    have hd := digitChar_spec (n % 10) (Nat.mod_lt _ (by decide))
    unfold Nat.toDigitsCore
    by_cases h0 : n / 10 = 0
    · refine ⟨[Nat.digitChar (n % 10)], by simp [h0], by simp, by simpa using hd.1, ?_⟩
      simp only [parseDigits, hd.1, hd.2, if_true]
      congr 1
      omega
    · have hlt : n / 10 < fuel := by omega
      obtain ⟨pre, hpre, _, hall, hval⟩ := ih (n / 10) (Nat.digitChar (n % 10) :: ds) hlt
      refine ⟨pre ++ [Nat.digitChar (n % 10)], by simp [h0, hpre], by simp, ?_, ?_⟩
      · intro c hc
        rcases List.mem_append.mp hc with hc | hc
        · exact hall c hc
        · simp only [List.mem_singleton] at hc
          rw [hc]; exact hd.1
      · rw [parseDigits_append, hval]
        simp only [Option.bind, parseDigits, hd.1, hd.2, if_true]
        congr 1
        omega

theorem Atoi_digits (cs : List Char) (n : Nat) (hne : cs ≠ [])
    (hall : ∀ c ∈ cs, c.isDigit = true) (hval : parseDigits cs 0 = some n) (hn : n < 2 ^ 63) :
    Atoi (String.mk cs) = some (n : Int) := by
  cases cs with
  | nil => exact absurd rfl hne
  | cons c t =>
    have hc : c.isDigit = true := hall c (by simp)
    have h1 : c ≠ '-' := by intro h; rw [h] at hc; exact absurd hc (by decide)
    have h2 : c ≠ '+' := by intro h; rw [h] at hc; exact absurd hc (by decide)
    have hs : splitSign (c :: t) = (false, c :: t) := by
      unfold splitSign
      split
      · rename_i heq
        simp only [List.cons.injEq] at heq
        exact absurd heq.1 h1
      · rename_i heq
        simp only [List.cons.injEq] at heq
        exact absurd heq.1 h2
      · rfl
    have hn2 : n < 9223372036854775808 := by simpa using hn
    simp [Atoi, hs, hval, IntSize, hn2]

theorem Atoi_toString (n : Nat) (hn : n < 2 ^ 63) : Atoi (toString n) = some (n : Int) := by
  obtain ⟨pre, hpre, hne, hall, hval⟩ := toDigitsCore_spec (n + 1) n [] (Nat.lt_succ_self n)
  have hs : toString n = String.mk pre := by
    show Nat.repr n = _
    unfold Nat.repr Nat.toDigits
    rw [hpre]
    simp [List.asString]
  rw [hs]
  exact Atoi_digits pre n hne hall hval hn

end strconv

namespace web

/-- C10 (as stated, refuted): a request that binds the bare name "id" to "42" gets 404
and snippets.Get is not called, because showSnippet reads the key ":id"; and the decimal
text of 2^63 bound to ":id" gets 404 as well, the value being outside the range of int. -/
theorem showSnippet_bare_id_not_read :
    sampleApp.showSnippet (sampleRequest "GET" "/snippet/42" [("id", ["42"])] []) =
      [Effect.httpError "Not Found" 404] ∧
    Effect.snippetsGet 42 ∉
      sampleApp.showSnippet (sampleRequest "GET" "/snippet/42" [("id", ["42"])] []) ∧
    sampleApp.showSnippet
        (sampleRequest "GET" "/snippet/9223372036854775808"
          [(":id", ["9223372036854775808"])] []) =
      [Effect.httpError "Not Found" 404] := by
  refine ⟨by decide, by decide, by decide⟩

/-- C10 (amended): showSnippet looks the identifier up under the key ":id", colon
included; when ":id" is bound to the decimal text of an integer n with 1 <= n < 2^63
(as "42" is for path /snippet/42), the first thing showSnippet does is call
snippets.Get(n). -/
theorem showSnippet_reads_colon_id (app : application) (r : Request) (n : Nat)
    (hpos : 1 ≤ n) (hfit : n < 2 ^ 63) (hbind : r.Query.Get ":id" = toString n) :
    (app.showSnippet r).head? = some (Effect.snippetsGet (n : Int)) := by
  have hparse : strconv.Atoi (r.Query.Get ":id") = some (n : Int) := by
    rw [hbind]
    exact strconv.Atoi_toString n hfit
  have hlt : ¬ (n : Int) < 1 := by omega
  unfold application.showSnippet
  rw [hparse]
  simp only [hlt, if_false]
  split <;> rfl

/-- Witness for C10 (amended): ":id" bound to "42". -/
theorem showSnippet_reads_colon_id_witness :
    (sampleRequest "GET" "/snippet/42" [(":id", ["42"])] []).Query.Get ":id" = toString 42 ∧
    (sampleApp.showSnippet (sampleRequest "GET" "/snippet/42" [(":id", ["42"])] [])).head? =
      some (Effect.snippetsGet 42) :=
  ⟨by decide,
   showSnippet_reads_colon_id sampleApp (sampleRequest "GET" "/snippet/42" [(":id", ["42"])] [])
     42 (by decide) (by decide) (by decide)⟩

end web

/-! ## Properties of the route table -/

namespace web

/-- C4: in the table built by routes(), the gated registrations are exactly GET and POST
/snippet/create and POST /user/logout, each the dynamic chain extended by
requireAuthentication; every other dynamic registration, those made after an Append call
included, is the un-extended chain [session.Enable, noSurf, authenticate] around its
handler; and Append leaves the chain it is called on as it was. -/
theorem routes_gate_exactly_three :
    (routes.table.filter Route.gated).map Route.key =
      [(Verb.Get, "/snippet/create"), (Verb.Post, "/snippet/create"),
       (Verb.Post, "/user/logout")] ∧
    (routes.table.filter Route.gated).map (fun e => e.handler) =
      [((alice.New [.sessionEnable, .noSurf, .authenticate]).Append
          [.requireAuthentication]).ThenFunc .createSnippetForm,
       ((alice.New [.sessionEnable, .noSurf, .authenticate]).Append
          [.requireAuthentication]).ThenFunc .createSnippet,
       ((alice.New [.sessionEnable, .noSurf, .authenticate]).Append
          [.requireAuthentication]).ThenFunc .logoutUser] ∧
    (routes.table.filter (fun e => !e.gated)).map (fun e => (e.key, e.handler)) =
      [((Verb.Get, "/"),
          (alice.New [.sessionEnable, .noSurf, .authenticate]).ThenFunc .home),
       ((Verb.Get, "/snippet/:id"),
          (alice.New [.sessionEnable, .noSurf, .authenticate]).ThenFunc .showSnippet),
       ((Verb.Get, "/user/signup"),
          (alice.New [.sessionEnable, .noSurf, .authenticate]).ThenFunc .signupUserForm),
       ((Verb.Post, "/user/signup"),
          (alice.New [.sessionEnable, .noSurf, .authenticate]).ThenFunc .signupUser),
       ((Verb.Get, "/user/login"),
          (alice.New [.sessionEnable, .noSurf, .authenticate]).ThenFunc .loginUserForm),
       ((Verb.Post, "/user/login"),
          (alice.New [.sessionEnable, .noSurf, .authenticate]).ThenFunc .loginUser),
       ((Verb.Get, "/static/"),
          Handler.StripPrefix "/static" (Handler.FileServer "./ui/static"))] ∧
    (routes.table.filter (fun e => e.handler.isFunc && !e.gated)).map
        (fun e => e.handler.chain) =
      List.replicate 6 [Middleware.sessionEnable, Middleware.noSurf, Middleware.authenticate] ∧
    (routes.table.filter Route.gated).map (fun e => e.handler.chain) =
      List.replicate 3
        [Middleware.sessionEnable, Middleware.noSurf, Middleware.authenticate,
         Middleware.requireAuthentication] ∧
    ((alice.New [.sessionEnable, .noSurf, .authenticate]).Append
        [.requireAuthentication]).constructors =
      (alice.New [.sessionEnable, .noSurf, .authenticate]).constructors ++
        [Middleware.requireAuthentication] ∧
    (alice.New [.sessionEnable, .noSurf, .authenticate]).constructors =
      [Middleware.sessionEnable, Middleware.noSurf, Middleware.authenticate] := by
  refine ⟨by decide, by decide, by decide, by decide, by decide, by decide, by decide⟩

theorem handler_serve_isPrefix (b : Behaviour) (r : Request) (f : HandlerFunc) :
    ∀ h : Handler, h.core = Handler.handlerFunc f →
      h.serve b r <+: h.chain.map Stage.middleware ++ [Stage.terminal f] ∧
      ((∀ m ∈ h.chain, delegates b m r = true) →
        h.serve b r = h.chain.map Stage.middleware ++ [Stage.terminal f]) := by
  intro h
  induction h with
  | handlerFunc g =>
    intro hcore
    simp only [Handler.core, Handler.handlerFunc.injEq] at hcore
    subst hcore
    simp [Handler.serve, Handler.chain]
  | wrapped m next ih =>
    intro hcore
    have hnext := ih (by simpa [Handler.core] using hcore)
    constructor
    · simp only [Handler.serve, Handler.chain, List.map_cons, List.cons_append]
      by_cases hd : delegates b m r = true
      · simp only [hd, if_true]
        exact (List.prefix_cons_inj _).mpr hnext.1
      · simp only [hd]
        exact ⟨_, rfl⟩
    · intro hall
      have hd : delegates b m r = true := hall m (by simp [Handler.chain])
      have hrest : ∀ m2 ∈ next.chain, delegates b m2 r = true :=
        fun m2 hm2 => hall m2 (by simp [Handler.chain, hm2])
      simp only [Handler.serve, Handler.chain, List.map_cons, List.cons_append, hd, if_true]
      rw [hnext.2 hrest]
  | FileServer root =>
    intro hcore
    simp [Handler.core] at hcore
  | StripPrefix p h _ =>
    intro hcore
    simp [Handler.core] at hcore

theorem routes_serve_eq (b : Behaviour) (r : Request) :
    routes.serve b r =
      [Stage.middleware .recoverPanic, Stage.middleware .logRequest,
       Stage.middleware .secureHeaders, Stage.dispatch] ++
      (match dispatch b routes.table r with
       | some e => e.handler.serve b r
       | none => [Stage.unmatched]) := rfl

theorem routes_chain_of_func :
    ∀ e ∈ routes.table, e.handler.isFunc = true →
      e.handler.chain =
        [Middleware.sessionEnable, Middleware.noSurf, Middleware.authenticate] ++
          (if e.gated then [Middleware.requireAuthentication] else []) := by
  decide

theorem isFunc_of_core (f : HandlerFunc) :
    ∀ h : Handler, h.core = Handler.handlerFunc f → h.isFunc = true := by
  intro h
  induction h with
  | handlerFunc g => intro _; rfl
  | wrapped m next ih => intro hc; exact ih (by simpa [Handler.core] using hc)
  | FileServer root => intro hc; simp [Handler.core] at hc
  | StripPrefix p h _ => intro hc; simp [Handler.core] at hc

end web

namespace web

/-- C9: the handler returned by routes() always enters recoverPanic, logRequest,
secureHeaders and then router dispatch, in this order and before anything else, whether
or not a route matches; for a request dispatched to a dynamic route the stages entered
are an initial segment of the order recoverPanic, logRequest, secureHeaders, dispatch,
session.Enable, noSurf, authenticate, requireAuthentication (gated routes only), terminal
handler, and the whole of it when every interceptor of the route delegates. -/
theorem routes_stage_order (b : Behaviour) (r : Request) :
    ([Stage.middleware .recoverPanic, Stage.middleware .logRequest,
      Stage.middleware .secureHeaders, Stage.dispatch] <+: routes.serve b r) ∧
    (dispatch b routes.table r = none →
      routes.serve b r =
        [Stage.middleware .recoverPanic, Stage.middleware .logRequest,
         Stage.middleware .secureHeaders, Stage.dispatch, Stage.unmatched]) ∧
    (∀ (e : Route) (f : HandlerFunc), dispatch b routes.table r = some e →
      e.handler.core = Handler.handlerFunc f →
        routes.serve b r <+: stageOrder e.gated f ∧
        ((∀ m ∈ e.handler.chain, delegates b m r = true) →
          routes.serve b r = stageOrder e.gated f)) := by
  refine ⟨?_, ?_, ?_⟩
  · rw [routes_serve_eq]
    exact List.prefix_append _ _
  · intro hnone
    rw [routes_serve_eq, hnone]
    rfl
  · intro e f hsome hcore
    have hmem : e ∈ routes.table := by
      unfold dispatch at hsome
      exact List.mem_of_find?_eq_some hsome
    have hchain := routes_chain_of_func e hmem (isFunc_of_core f e.handler hcore)
    have hserve := handler_serve_isPrefix b r f e.handler hcore
    have horder : stageOrder e.gated f =
        [Stage.middleware .recoverPanic, Stage.middleware .logRequest,
         Stage.middleware .secureHeaders, Stage.dispatch] ++
        (e.handler.chain.map Stage.middleware ++ [Stage.terminal f]) := by
      rw [hchain]
      unfold stageOrder
      cases e.gated <;> rfl
    rw [routes_serve_eq, hsome, horder]
    constructor
    · exact (List.prefix_append_right_inj _).mpr hserve.1
    · intro hall
      show _ ++ Handler.serve b e.handler r = _
      rw [hserve.2 hall]

/-- Witness for C9: GET /snippet/create with every interceptor delegating runs the full
gated order down to createSnippetForm. -/
theorem routes_stage_order_witness :
    dispatch sampleBehaviour routes.table (sampleRequest "GET" "/snippet/create" [] []) =
      some { verb := Verb.Get, pattern := "/snippet/create",
             handler := ((alice.New [.sessionEnable, .noSurf, .authenticate]).Append
               [.requireAuthentication]).ThenFunc .createSnippetForm } ∧
    routes.serve sampleBehaviour (sampleRequest "GET" "/snippet/create" [] []) =
      [Stage.middleware .recoverPanic, Stage.middleware .logRequest,
       Stage.middleware .secureHeaders, Stage.dispatch,
       Stage.middleware .sessionEnable, Stage.middleware .noSurf,
       Stage.middleware .authenticate, Stage.middleware .requireAuthentication,
       Stage.terminal .createSnippetForm] :=
  ⟨by decide,
   ((routes_stage_order sampleBehaviour (sampleRequest "GET" "/snippet/create" [] [])).2.2
      { verb := Verb.Get, pattern := "/snippet/create",
        handler := ((alice.New [.sessionEnable, .noSurf, .authenticate]).Append
          [.requireAuthentication]).ThenFunc .createSnippetForm }
      .createSnippetForm (by decide) rfl).2 (by decide)⟩

end web

/-! ## Order of additions and of rules -/

namespace forms

theorem Add_commute_index (e : errors) (f1 m1 f2 m2 : String) (hne : f1 ≠ f2) (f : String) :
    ((e.Add f1 m1).Add f2 m2).index f = ((e.Add f2 m2).Add f1 m1).index f := by
  have hne2 : ¬ f2 = f1 := fun h => hne h.symm
  simp only [index_Add]
  by_cases h1 : f1 = f
  · subst h1
    simp [hne2]
  · by_cases h2 : f2 = f
    · subst h2
      simp [hne]
    · simp [h1, h2]

theorem Required_index (fields : List String) (f : Form) (g : String) :
    (f.Required fields).Errors.index g =
      f.Errors.index g ++
        (fields.filter (fun fld => decide (fld = g) && fieldBlank f.Values fld)).map
          (fun _ => "This field cannot be blank") := by
  unfold Form.Required
  induction fields generalizing f with
  | nil => simp
  | cons fld rest ih =>
    simp only [List.foldl_cons]
    rw [ih]
    by_cases hb : fieldBlank f.Values fld = true
    · simp only [hb, if_true, index_Add, Bool.and_true]
      by_cases hg : fld = g
      · subst hg
        simp [List.filter_cons, hb]
      · simp [hg, List.filter_cons]
    · have hb2 : fieldBlank f.Values fld = false := by simpa using hb
      simp [hb2, List.filter_cons]

theorem MaxLength_index (f : Form) (field : String) (n : Nat) (g : String) :
    (f.MaxLength field n).Errors.index g =
      f.Errors.index g ++
        (if field = g ∧ n < (f.Get field).length then
          ["This field is too long (maximum is " ++ toString n ++ " characters)"]
         else []) := by
  unfold Form.MaxLength
  by_cases h : n < (f.Get field).length
  · simp only [h, if_true, index_Add, and_true]
    by_cases hg : field = g <;> simp [hg]
  · simp [h]

theorem PermittedValues_index (f : Form) (field : String) (allowed : List String)
    (g : String) :
    (f.PermittedValues field allowed).Errors.index g =
      f.Errors.index g ++
        (if field = g ∧ f.Get field ≠ "" ∧ f.Get field ∉ allowed then
          ["This field is invalid"]
         else []) := by
  unfold Form.PermittedValues
  by_cases h1 : f.Get field = ""
  · simp [h1]
  · by_cases h2 : f.Get field ∈ allowed
    · simp [h1, h2]
    · simp only [h1, h2, if_false, index_Add]
      by_cases hg : field = g
      · subst hg
        simp [h1, h2]
      · simp [hg]

end forms

namespace web

theorem SnippetRule_apply_Values (rule : SnippetRule) (form : forms.Form) :
    (rule.apply form).Values = form.Values := by
  cases rule
  · exact forms.Required_Values _ _
  · exact forms.MaxLength_Values _ _ _
  · exact forms.PermittedValues_Values _ _ _

theorem SnippetRule_apply_hasEntry (rule : SnippetRule) (form : forms.Form) (g : String) :
    (rule.apply form).Errors.hasEntry g =
      (form.Errors.hasEntry g || rule.flags form.Values g) := by
  cases rule
  · exact forms.Required_hasEntry _ _ _
  · exact forms.MaxLength_hasEntry _ _ _ _
  · exact forms.PermittedValues_hasEntry _ _ _ _

theorem SnippetRule_apply_index (rule : SnippetRule) (form : forms.Form) (g : String) :
    (rule.apply form).Errors.index g =
      form.Errors.index g ++ rule.messages form.Values g := by
  cases rule
  · exact forms.Required_index _ _ _
  · have hmsg : "This field is too long (maximum is " ++ toString 100 ++ " characters)" =
        "This field is too long (maximum is 100 characters)" := by decide
    simp only [SnippetRule.apply, SnippetRule.messages, forms.MaxLength_index, hmsg,
      forms.Form.Get]
  · simp only [SnippetRule.apply, SnippetRule.messages, forms.PermittedValues_index,
      forms.Form.Get]

theorem foldl_apply_hasEntry (order : List SnippetRule) (form : forms.Form) (g : String) :
    (order.foldl (fun acc rule => rule.apply acc) form).Values = form.Values ∧
    (order.foldl (fun acc rule => rule.apply acc) form).Errors.hasEntry g =
      (form.Errors.hasEntry g || order.any (fun rule => rule.flags form.Values g)) := by
  induction order generalizing form with
  | nil => simp
  | cons rule rest ih =>
    simp only [List.foldl_cons, List.any_cons]
    obtain ⟨hv, he⟩ := ih (rule.apply form)
    rw [hv, he, SnippetRule_apply_Values, SnippetRule_apply_hasEntry]
    exact ⟨rfl, by rw [Bool.or_assoc]⟩

theorem foldl_apply_index (order : List SnippetRule) (form : forms.Form) (g : String) :
    (order.foldl (fun acc rule => rule.apply acc) form).Errors.index g =
      form.Errors.index g ++ order.flatMap (fun rule => rule.messages form.Values g) := by
  induction order generalizing form with
  | nil => simp
  | cons rule rest ih =>
    simp only [List.foldl_cons, List.flatMap_cons]
    rw [ih, SnippetRule_apply_Values, SnippetRule_apply_index, List.append_assoc]

theorem snippetFormIn_hasEntry (order : List SnippetRule) (data : url.Values) (g : String) :
    (snippetFormIn order data).Errors.hasEntry g = order.any (fun rule => rule.flags data g) := by
  unfold snippetFormIn
  rw [(foldl_apply_hasEntry order (forms.New data) g).2]
  rfl

theorem snippetFormIn_index (order : List SnippetRule) (data : url.Values) (g : String) :
    (snippetFormIn order data).Errors.index g =
      order.flatMap (fun rule => rule.messages data g) := by
  unfold snippetFormIn
  rw [foldl_apply_index order (forms.New data) g]
  rfl

theorem snippetForm_eq_source_order (data : url.Values) :
    snippetForm data = snippetFormIn [.required, .maxLength, .permittedValues] data := by
  simp only [snippetForm, snippetFormIn, List.foldl_cons, List.foldl_nil, SnippetRule.apply]

/-- C6 (as stated, refuted): two Add calls for the same field do not commute. On the empty
collection, adding the "blank" and the "too long" message to "title" in the two orders
gives different first messages; and a title of 101 spaces makes Required and MaxLength
both flag "title", so running MaxLength before Required changes what Get("title") returns. -/
theorem errors_Add_same_field_order_matters :
    forms.errors.Get
        (forms.errors.Add (forms.errors.Add [] "title" "This field cannot be blank") "title"
          "This field is too long (maximum is 100 characters)") "title" ≠
      forms.errors.Get
        (forms.errors.Add
          (forms.errors.Add [] "title" "This field is too long (maximum is 100 characters)")
          "title" "This field cannot be blank") "title" ∧
    (snippetForm [("title", [String.mk (List.replicate 101 ' ')]), ("content", ["x"]),
        ("expires", ["7"])]).Errors.Get "title" = "This field cannot be blank" ∧
    (snippetFormIn [.maxLength, .required, .permittedValues]
        [("title", [String.mk (List.replicate 101 ' ')]), ("content", ["x"]),
         ("expires", ["7"])]).Errors.Get "title" =
      "This field is too long (maximum is 100 characters)" := by
  refine ⟨by decide, by decide, by decide⟩

/-- C6 (amended): on a collection built from the empty one by Add calls, two further Add
calls for different fields commute, giving the same message list and the same Get for
every field; two Add calls for one field are kept in call order; in either order the same
fields carry an entry. For the rules of createSnippet run in any order, the messages of a
field are what each rule records on its own, one rule after the other in the order the
rules are run; so every order of the three rules gives each field the same messages up to
their order, flags the same fields and gives the same Valid(). -/
theorem errors_Add_commute_distinct_fields (calls : List (String × String))
    (f1 m1 f2 m2 : String) :
    (f1 ≠ f2 → ∀ f : String,
      (((forms.errors.built calls).Add f1 m1).Add f2 m2).index f =
        (((forms.errors.built calls).Add f2 m2).Add f1 m1).index f ∧
      (((forms.errors.built calls).Add f1 m1).Add f2 m2).Get f =
        (((forms.errors.built calls).Add f2 m2).Add f1 m1).Get f) ∧
    (((forms.errors.built calls).Add f1 m1).Add f1 m2).index f1 =
      (forms.errors.built calls).index f1 ++ [m1, m2] ∧
    (∀ f : String,
      (((forms.errors.built calls).Add f1 m1).Add f2 m2).hasEntry f =
        (((forms.errors.built calls).Add f2 m2).Add f1 m1).hasEntry f) ∧
    (∀ (order : List SnippetRule) (data : url.Values) (g : String),
      (snippetFormIn order data).Errors.index g =
        order.flatMap (fun rule => (snippetFormIn [rule] data).Errors.index g)) ∧
    (∀ (order : List SnippetRule) (data : url.Values),
      order.Perm [.required, .maxLength, .permittedValues] →
        (∀ g : String,
          ((snippetFormIn order data).Errors.index g).Perm
            ((snippetForm data).Errors.index g)) ∧
        (∀ g : String,
          (snippetFormIn order data).Errors.hasEntry g = (snippetForm data).Errors.hasEntry g) ∧
        (snippetFormIn order data).Valid = (snippetForm data).Valid) := by
  refine ⟨?_, ?_, ?_, ?_, ?_⟩
  · intro hne f
    have hidx := forms.Add_commute_index (forms.errors.built calls) f1 m1 f2 m2 hne f
    refine ⟨hidx, ?_⟩
    unfold forms.errors.Get
    rw [hidx]
  · simp [forms.index_Add]
  · intro f
    simp only [forms.hasEntry_Add]
    cases decide (f1 = f) <;> cases decide (f2 = f) <;> simp
  · intro order data g
    have hone : ∀ rule : SnippetRule,
        (snippetFormIn [rule] data).Errors.index g = rule.messages data g := by
      intro rule
      rw [snippetFormIn_index]
      simp
    simp only [hone]
    exact snippetFormIn_index order data g
  · intro order data hperm
    have hentry : ∀ g : String,
        (snippetFormIn order data).Errors.hasEntry g =
          (snippetForm data).Errors.hasEntry g := by
      intro g
      rw [snippetForm_eq_source_order, snippetFormIn_hasEntry, snippetFormIn_hasEntry,
        Bool.eq_iff_iff]
      simp only [List.any_eq_true]
      constructor
      · rintro ⟨x, hx, hp⟩
        exact ⟨x, hperm.mem_iff.mp hx, hp⟩
      · rintro ⟨x, hx, hp⟩
        exact ⟨x, hperm.mem_iff.mpr hx, hp⟩
    refine ⟨?_, hentry, ?_⟩
    · intro g
      rw [snippetForm_eq_source_order, snippetFormIn_index, snippetFormIn_index]
      exact hperm.flatMap_right _
    · rw [Bool.eq_iff_iff, forms.Valid_iff_no_entry, forms.Valid_iff_no_entry]
      constructor
      · intro h g
        rw [← hentry g]; exact h g
      · intro h g
        rw [hentry g]; exact h g

/-- Witness for C6 (amended): after an Add for "content", "title" and "expires" are added
in the two orders; and the rules are run with MaxLength first on a title of 101 spaces. -/
theorem errors_Add_commute_distinct_fields_witness :
    "title" ≠ "expires" ∧
    forms.errors.Get
        (forms.errors.Add (forms.errors.Add (forms.errors.built [("content", "c")]) "title" "a")
          "expires" "b") "title" =
      forms.errors.Get
        (forms.errors.Add (forms.errors.Add (forms.errors.built [("content", "c")]) "expires" "b")
          "title" "a") "title" ∧
    [SnippetRule.maxLength, .required, .permittedValues].Perm
      [.required, .maxLength, .permittedValues] ∧
    ((snippetFormIn [.maxLength, .required, .permittedValues]
        [("title", [String.mk (List.replicate 101 ' ')])]).Errors.index "title").Perm
      ((snippetForm [("title", [String.mk (List.replicate 101 ' ')])]).Errors.index "title") ∧
    (snippetFormIn [.maxLength, .required, .permittedValues]
        [("title", [String.mk (List.replicate 101 ' ')])]).Errors.index "title" =
      ["This field is too long (maximum is 100 characters)", "This field cannot be blank"] :=
  ⟨by decide,
   ((errors_Add_commute_distinct_fields [("content", "c")] "title" "a" "expires" "b").1
     (by decide) "title").2,
   List.Perm.swap _ _ _,
   ((errors_Add_commute_distinct_fields [] "title" "a" "expires" "b").2.2.2.2
     [.maxLength, .required, .permittedValues]
     [("title", [String.mk (List.replicate 101 ' ')])] (List.Perm.swap _ _ _)).1 "title",
   by decide⟩

end web
